import Mathlib

/-!
Verification of the yosai session-management core and hashing helper.

The hashing definitions are a shallow embedding of
src/yosai/authc/crypto/hash/hash.py.  Salt objects are modelled by their
byte content (Python `getattr(x, "bytes", None)` on a salt yields its
bytes); Python truthiness of an optional byte string is modelled by
`truthyBytes`.  The cryptographic digest computed by `SimpleHash` is an
external primitive and is passed in as a function parameter.
-/

namespace Yosai

/-- Python truthiness of an optional byte string: `None` and the empty
byte string are falsy, every other byte string is truthy. -/
def truthyBytes : Option (List Nat) → Bool
  | none => false
  | some b => !b.isEmpty

/-- The hash produced by the service: `SimpleHash` result object fields
assigned in `DefaultHashService.compute_hash`. -/
structure SimpleHash where
  algorithm_name : String
  bytes : List Nat
  iterations : Int
  salt : Option (List Nat)
  deriving DecidableEq

/-- A hash request (`SimpleHashRequest` shape): optional algorithm name,
source bytes, optional public salt, and an iteration count. -/
structure HashRequest where
  algorithm_name : Option String
  source : List Nat
  salt : Option (List Nat)
  iterations : Int
  deriving DecidableEq

/-- `DefaultHashService` configuration fields from `__init__`; the random
number generator is modelled by the byte string its `next_bytes()` call
returns. -/
structure DefaultHashService where
  algorithm_name : String
  iterations : Int
  generate_public_salt : Bool
  rng_next_bytes : List Nat
  private_salt : Option (List Nat)

/-- `DefaultHashService.get_algorithm_name`: the request's algorithm name,
falling back to the service default when the request carries none. -/
def DefaultHashService.get_algorithm_name (svc : DefaultHashService) (request : HashRequest) : String :=
  match request.algorithm_name with
  | none => svc.algorithm_name
  | some name => name

/-- `DefaultHashService.get_iterations`: clamp the request's iterations at
zero; when the clamped value is below one, use the larger of one and the
service default. -/
def DefaultHashService.get_iterations (svc : DefaultHashService) (request : HashRequest) : Int :=
  let iterations := max 0 request.iterations
  if iterations < 1 then max 1 svc.iterations else iterations

/-- `DefaultHashService.get_public_salt`: an explicitly requested salt is
used as-is when truthy; otherwise a public salt is generated whenever a
private salt exists or the service is configured to generate one. -/
def DefaultHashService.get_public_salt (svc : DefaultHashService) (request : HashRequest) : Option (List Nat) :=
  let public_salt := request.salt
  if truthyBytes public_salt then public_salt
  else if truthyBytes svc.private_salt || svc.generate_public_salt then some svc.rng_next_bytes
  else none

/-- `DefaultHashService.combine`: concatenate the private and public salt
bytes, treating falsy byte strings as absent; both absent yields `None`. -/
def DefaultHashService.combine (_svc : DefaultHashService) (private_salt public_salt : Option (List Nat)) :
    Option (List Nat) :=
  let private_salt_bytes := private_salt
  let public_salt_bytes := public_salt
  if !truthyBytes private_salt_bytes && !truthyBytes public_salt_bytes then none
  else
    some ((if truthyBytes private_salt_bytes then private_salt_bytes.getD [] else []) ++
          (if truthyBytes public_salt_bytes then public_salt_bytes.getD [] else []))

/-- `DefaultHashService.compute_hash`: `None` for an absent request or a
falsy source; otherwise digest the source with the combined
private+public salt while exposing only the public salt on the result.
`digest` stands for the `SimpleHash` digest primitive. -/
def DefaultHashService.compute_hash (svc : DefaultHashService)
    (digest : String → List Nat → Option (List Nat) → Int → List Nat)
    (request : Option HashRequest) : Option SimpleHash :=
  match request with
  | none => none
  | some r =>
    if r.source.isEmpty then none
    else
      let algorithm_name := svc.get_algorithm_name r
      let source := r.source
      let iterations := svc.get_iterations r
      let public_salt := svc.get_public_salt r
      let salt := svc.combine svc.private_salt public_salt
      let computed := digest algorithm_name source salt iterations
      some { algorithm_name := algorithm_name, bytes := computed,
             iterations := iterations, salt := public_salt }

/-- C9: for every request with integer iterations, `get_iterations`
returns at least one iteration: the request's count when that is one or
more, otherwise the larger of one and the configured service default. -/
theorem get_iterations_at_least_one (svc : DefaultHashService) (request : HashRequest) :
    1 ≤ svc.get_iterations request
    ∧ (1 ≤ request.iterations → svc.get_iterations request = request.iterations)
    ∧ (request.iterations < 1 → svc.get_iterations request = max 1 svc.iterations) := by
  have hdef : svc.get_iterations request =
      if max 0 request.iterations < 1 then max 1 svc.iterations
      else max 0 request.iterations := rfl
  rcases le_or_lt 1 request.iterations with h1 | h1
  · have hmax : max 0 request.iterations = request.iterations :=
      max_eq_right (by omega)
    have hcond : ¬ max 0 request.iterations < 1 := by rw [hmax]; omega
    have hval : svc.get_iterations request = request.iterations := by
      rw [hdef, if_neg hcond, hmax]
    refine ⟨by rw [hval]; exact h1, fun _ => hval, fun h2 => absurd h1 (by omega)⟩
  · have hmax : max 0 request.iterations = 0 := max_eq_left (by omega)
    have hcond : max 0 request.iterations < 1 := by rw [hmax]; omega
    have hval : svc.get_iterations request = max 1 svc.iterations := by
      rw [hdef, if_pos hcond]
    refine ⟨by rw [hval]; exact le_max_left 1 svc.iterations,
            fun h2 => absurd h1 (by omega), fun _ => hval⟩

/-- Witness for C9 at a concrete service and two concrete requests. -/
theorem get_iterations_at_least_one_witness :
    ({ algorithm_name := "SHA-512", iterations := 3, generate_public_salt := false,
       rng_next_bytes := [], private_salt := none : DefaultHashService }.get_iterations
      { algorithm_name := none, source := [1], salt := none, iterations := 7 } = 7)
    ∧ ({ algorithm_name := "SHA-512", iterations := 3, generate_public_salt := false,
         rng_next_bytes := [], private_salt := none : DefaultHashService }.get_iterations
        { algorithm_name := none, source := [1], salt := none, iterations := -2 } = 3) := by
  constructor
  · exact (get_iterations_at_least_one
      { algorithm_name := "SHA-512", iterations := 3, generate_public_salt := false,
        rng_next_bytes := [], private_salt := none }
      { algorithm_name := none, source := [1], salt := none, iterations := 7 }).2.1 (by decide)
  · have h := (get_iterations_at_least_one
      { algorithm_name := "SHA-512", iterations := 3, generate_public_salt := false,
        rng_next_bytes := [], private_salt := none }
      { algorithm_name := none, source := [1], salt := none, iterations := -2 }).2.2 (by decide)
    rw [h]; decide

/-- The combined salt differs from the exposed public salt whenever a
truthy private salt entered the combination. -/
theorem combine_ne_public (svc : DefaultHashService) (pub : Option (List Nat))
    (hpriv : truthyBytes svc.private_salt = true) :
    pub ≠ svc.combine svc.private_salt pub := by
  rcases hps : svc.private_salt with _ | pbytes
  · rw [hps] at hpriv
    simp [truthyBytes] at hpriv
  · have hpb : pbytes ≠ [] := by
      rw [hps] at hpriv
      simpa [truthyBytes, List.isEmpty_iff] using hpriv
    have htp : truthyBytes (some pbytes) = true := by
      simp [truthyBytes, List.isEmpty_iff, hpb]
    rcases pub with _ | qbytes
    · simp [DefaultHashService.combine, htp]
    · by_cases hq : qbytes = []
      · subst hq
        simp [DefaultHashService.combine, htp, truthyBytes]
      · have htq : truthyBytes (some qbytes) = true := by
          simp [truthyBytes, List.isEmpty_iff, hq]
        simp [DefaultHashService.combine, htp, htq]
        intro hc
        have hlen := congrArg List.length hc
        simp at hlen
        exact hpb hlen

/-- C10: `compute_hash` returns `None` exactly when the request is absent
or has a falsy source; otherwise it returns a hash whose salt field is the
public salt only — when a truthy private salt exists, the exposed salt is
never the combined private+public salt actually used for the digest. -/
theorem compute_hash_salt_exposure (svc : DefaultHashService)
    (digest : String → List Nat → Option (List Nat) → Int → List Nat)
    (request : HashRequest) :
    svc.compute_hash digest none = none
    ∧ (request.source = [] → svc.compute_hash digest (some request) = none)
    ∧ (request.source ≠ [] →
        ∀ h, svc.compute_hash digest (some request) = some h →
          h.salt = svc.get_public_salt request
          ∧ h.bytes = digest (svc.get_algorithm_name request) request.source
              (svc.combine svc.private_salt (svc.get_public_salt request))
              (svc.get_iterations request)
          ∧ (truthyBytes svc.private_salt = true →
              h.salt ≠ svc.combine svc.private_salt (svc.get_public_salt request)))
    ∧ (request.source ≠ [] → (svc.compute_hash digest (some request)).isSome) := by
  refine ⟨rfl, ?_, ?_, ?_⟩
  · intro hsrc
    simp [DefaultHashService.compute_hash, hsrc]
  · intro hsrc h hcomp
    have hne : ¬ request.source.isEmpty := by
      simpa [List.isEmpty_iff] using hsrc
    simp [DefaultHashService.compute_hash, hne] at hcomp
    subst hcomp
    refine ⟨rfl, rfl, ?_⟩
    intro hpriv
    exact combine_ne_public svc (svc.get_public_salt request) hpriv
  · intro hsrc
    have hne : ¬ request.source.isEmpty := by
      simpa [List.isEmpty_iff] using hsrc
    simp [DefaultHashService.compute_hash, hne]

/-- Witness for C10 at a concrete service, digest and request with a
truthy private salt. -/
theorem compute_hash_salt_exposure_witness :
    ({ algorithm_name := "SHA-512", iterations := 1, generate_public_salt := false,
       rng_next_bytes := [9], private_salt := some [5] : DefaultHashService }.compute_hash
        (fun _ src _ _ => src) (some { algorithm_name := none, source := [], salt := some [2], iterations := 1 })
      = none)
    ∧ (∀ h,
        { algorithm_name := "SHA-512", iterations := 1, generate_public_salt := false,
          rng_next_bytes := [9], private_salt := some [5] : DefaultHashService }.compute_hash
          (fun _ src _ _ => src)
          (some { algorithm_name := none, source := [1], salt := some [2], iterations := 1 }) = some h →
        h.salt = some [2]) := by
  constructor
  · exact (compute_hash_salt_exposure
      { algorithm_name := "SHA-512", iterations := 1, generate_public_salt := false,
        rng_next_bytes := [9], private_salt := some [5] }
      (fun _ src _ _ => src)
      { algorithm_name := none, source := [], salt := some [2], iterations := 1 }).2.1 rfl
  · intro h hcomp
    have hmain := (compute_hash_salt_exposure
      { algorithm_name := "SHA-512", iterations := 1, generate_public_salt := false,
        rng_next_bytes := [9], private_salt := some [5] }
      (fun _ src _ _ => src)
      { algorithm_name := none, source := [1], salt := some [2], iterations := 1 }).2.2.1
      (by decide) h hcomp
    rw [hmain.1]; decide

/-!
Session-management core.  The implementation (DefaultNativeSessionHandler,
DefaultNativeSessionManager, CachingSessionStore, SessionEventHandler,
SimpleSession) is not included in the sources, only its unit tests are;
the definitions below are therefore modelled from the specification, with
edge cases pinned by the in-repository unit tests where the tests exercise
them.  Machine state is passed explicitly; raising an exception is an
`Except.error`; every observable side effect (store update/delete, event
publication, lifecycle hook invocation) is recorded in an ordered `Call`
log returned alongside the result.
-/

/-- Modelled from the spec: the implicit session state machine
`ACTIVE | STOPPED | EXPIRED`. -/
inductive SessionState where
  | active
  | stopped
  | expired
  deriving DecidableEq

/-- Modelled from the spec: the error taxonomy of section 7. -/
inductive Exc where
  | unknownSession
  | expiredSession
  | stoppedSession
  | invalidSession
  | sessionCreation
  | sessionEvent
  | invalidArgument
  | illegalState
  deriving DecidableEq

/-- Modelled from the spec: the Session entity.  Timestamps are ticks of a
global clock; attribute values are strings; a non-positive timeout
disables that timeout check. -/
structure Session where
  session_id : Option String
  start_timestamp : Nat
  stop_timestamp : Option Nat
  last_access_time : Nat
  idle_timeout : Int
  absolute_timeout : Int
  host : Option String
  attributes : List (String × String)
  internal_attributes : List (String × String)
  state : SessionState
  deriving DecidableEq

/-- Modelled from the spec: a SessionKey, a composite of a session id and
optional caller-supplied identifiers. -/
structure SessionKey where
  session_id : Option String
  identifiers : Option String
  deriving DecidableEq

/-- Modelled from the spec: the `(identifiers, session_key)` tuple passed
to stop/expiration notifications. -/
structure SessionTuple where
  identifiers : Option String
  session_key : Option SessionKey
  deriving DecidableEq

/-- Event-bus payloads: `{session_id}` for start events, `{items:
session_tuple}` for stop/expiration events. -/
inductive Payload where
  | sessionId (sid : String)
  | items (t : SessionTuple)
  deriving DecidableEq

/-- One entry of the observable side-effect log: lifecycle hook
invocations, store mutations and event-bus publications, in order. -/
inductive Call where
  | on_change (s : Session)
  | on_stop (s : Session)
  | after_stopped (s : Session)
  | after_expired (s : Session)
  | on_expiration
  | on_invalidation
  | delete (s : Session)
  | notify_start
  | notify_stop (t : SessionTuple)
  | notify_expiration (t : SessionTuple)
  | publish (topic : String) (payload : Payload)
  deriving DecidableEq

/-- True exactly on `Call.on_stop` entries. -/
def Call.isOnStop : Call → Bool
  | Call.on_stop _ => true
  | _ => false

/-- True exactly on `Call.notify_stop` entries. -/
def Call.isNotifyStop : Call → Bool
  | Call.notify_stop _ => true
  | _ => false

/-- True exactly on `Call.after_stopped` entries. -/
def Call.isAfterStopped : Call → Bool
  | Call.after_stopped _ => true
  | _ => false

/-- True exactly on `Call.on_expiration` entries. -/
def Call.isOnExpiration : Call → Bool
  | Call.on_expiration => true
  | _ => false

/-- True exactly on `Call.on_invalidation` entries. -/
def Call.isOnInvalidation : Call → Bool
  | Call.on_invalidation => true
  | _ => false

/-- True exactly on `Call.publish` entries. -/
def Call.isPublish : Call → Bool
  | Call.publish _ _ => true
  | _ => false

/-- Modelled from the spec: read a framework-private internal attribute. -/
def Session.get_internal_attribute (s : Session) (k : String) : Option String :=
  List.lookup k s.internal_attributes

/-- Modelled from the spec: `touch` advances the last-access time. -/
def Session.touch (s : Session) (now : Nat) : Session :=
  { s with last_access_time := now }

/-- Modelled from the spec: the session's own stop — set STOPPED and the
stop timestamp; fail when the session is already terminal. -/
def Session.stop (s : Session) (now : Nat) : Except Exc Session :=
  match s.state with
  | SessionState.active =>
    Except.ok { s with state := SessionState.stopped, stop_timestamp := some now }
  | _ => Except.error Exc.invalidSession

/-- Modelled from the spec: a positive idle timeout is breached when more
than `idle_timeout` ticks passed since the last access; a positive
absolute timeout when more than `absolute_timeout` ticks passed since the
start.  A non-positive value disables that check. -/
def Session.is_timed_out (s : Session) (now : Nat) : Bool :=
  (decide (0 < s.idle_timeout) &&
    decide (s.idle_timeout < (now : Int) - (s.last_access_time : Int))) ||
  (decide (0 < s.absolute_timeout) &&
    decide (s.absolute_timeout < (now : Int) - (s.start_timestamp : Int)))

/-- Modelled from the spec: the session's own state check — a terminal
state fails (stopped as a stopped-session condition, expired as an
expired-timeout condition) and a breached timeout is an expired-timeout
condition; otherwise the session is valid. -/
def Session.validate (s : Session) (now : Nat) : Except Exc Unit :=
  match s.state with
  | SessionState.stopped => Except.error Exc.stoppedSession
  | SessionState.expired => Except.error Exc.expiredSession
  | SessionState.active =>
    if s.is_timed_out now then Except.error Exc.expiredSession else Except.ok ()

/-- Modelled from the spec: set an application attribute (ordered mapping
String to value). -/
def Session.set_attribute (s : Session) (k v : String) : Session :=
  { s with attributes := (k, v) :: s.attributes.filter (fun p => p.1 != k) }

/-- Modelled from the spec: remove an application attribute, returning the
removed value, `none` when the key is absent. -/
def Session.remove_attribute (s : Session) (k : String) : Option String × Session :=
  (List.lookup k s.attributes,
   { s with attributes := s.attributes.filter (fun p => p.1 != k) })

/-- Modelled from the spec: set a framework-private internal attribute. -/
def Session.set_internal_attribute (s : Session) (k v : String) : Session :=
  { s with internal_attributes := (k, v) :: s.internal_attributes.filter (fun p => p.1 != k) }

/-- Modelled from the spec: remove a framework-private internal attribute,
returning the removed value, `none` when the key is absent. -/
def Session.remove_internal_attribute (s : Session) (k : String) : Option String × Session :=
  (List.lookup k s.internal_attributes,
   { s with internal_attributes := s.internal_attributes.filter (fun p => p.1 != k) })

/-- Modelled from the spec: the backing SessionStore collaborator contract
of section 6, over an abstract store state `σ`: `create` assigns and
returns the id (or fails to, returning none), `read` resolves an id,
`update` persists, `delete` removes. -/
structure StoreOps (σ : Type) where
  create : σ → Session → Option String × σ
  read : σ → String → Option Session
  update : σ → Session → σ
  delete : σ → Session → σ

/-- Laws any backing store engine must satisfy: reading an id right after
persisting a session under it yields that session, and reading it right
after deleting that session yields nothing. -/
structure LawfulStore {σ : Type} (ops : StoreOps σ) : Prop where
  read_update : ∀ (b : σ) (s : Session) (i : String),
    s.session_id = some i → ops.read (ops.update b s) i = some s
  read_delete : ∀ (b : σ) (s : Session) (i : String),
    s.session_id = some i → ops.read (ops.delete b s) i = none

/-- Modelled from the spec: CachingSessionStore — a backing store plus an
optional cache handler region (an association list keyed by session id);
an absent cache handler degrades every operation to a pass-through. -/
structure CachingSessionStore (σ : Type) where
  ops : StoreOps σ
  backing : σ
  cache_handler : Option (List (String × Session))

/-- Modelled from the spec: `create` persists via the underlying store
(which assigns and returns the id) and then populates the cache keyed by
that id. -/
def CachingSessionStore.create {σ : Type} (st : CachingSessionStore σ) (s : Session) :
    Option String × CachingSessionStore σ :=
  let r := st.ops.create st.backing s
  match r.1, st.cache_handler with
  | some i, some c =>
    (r.1, { st with
            backing := r.2
            cache_handler := some ((i, s) :: c.filter (fun p => p.1 != i)) })
  | _, _ => (r.1, { st with backing := r.2 })

/-- Modelled from the spec: `read` returns a cache hit directly; on a miss
it reads the backing store and populates the cache when a session is
found; both misses return `none`. -/
def CachingSessionStore.read {σ : Type} (st : CachingSessionStore σ) (i : String) :
    Option Session × CachingSessionStore σ :=
  match st.cache_handler with
  | none => (st.ops.read st.backing i, st)
  | some c =>
    match List.lookup i c with
    | some s => (some s, st)
    | none =>
      match st.ops.read st.backing i with
      | none => (none, st)
      | some s => (some s, { st with cache_handler := some ((i, s) :: c) })

/-- Modelled from the spec: `update` persists the mutated session to the
backing store and then overwrites the cache entry for its id
(write-through). -/
def CachingSessionStore.update {σ : Type} (st : CachingSessionStore σ) (s : Session) :
    CachingSessionStore σ :=
  let backing1 := st.ops.update st.backing s
  match st.cache_handler, s.session_id with
  | some c, some i =>
    { st with
      backing := backing1
      cache_handler := some ((i, s) :: c.filter (fun p => p.1 != i)) }
  | _, _ => { st with backing := backing1 }

/-- Modelled from the spec: `delete` removes the cache entry for the
session's id and then deletes from the backing store. -/
def CachingSessionStore.delete {σ : Type} (st : CachingSessionStore σ) (s : Session) :
    CachingSessionStore σ :=
  let cache1 := match st.cache_handler, s.session_id with
    | some c, some i => some (c.filter (fun p => p.1 != i))
    | c, _ => c
  { st with cache_handler := cache1, backing := st.ops.delete st.backing s }

/-- Looking up a key at the head of an association list hits it. -/
theorem lookup_cons_self {β : Type} (i : String) (b : β) (l : List (String × β)) :
    List.lookup i ((i, b) :: l) = some b := by
  simp [List.lookup]

/-- Looking up a key in an association list from which every pair with
that key was filtered out finds nothing. -/
theorem lookup_filter_self {β : Type} (i : String) (l : List (String × β)) :
    List.lookup i (l.filter (fun p => p.1 != i)) = none := by
  induction l with
  | nil => rfl
  | cons p l ih =>
    rcases p with ⟨k, b⟩
    by_cases hk : k = i
    · subst hk
      simp [List.filter_cons, ih]
    · have hki : (k != i) = true := by simp [hk]
      have hik : (i == k) = false := by
        simp [Ne.symm hk]
      simp [List.filter_cons, hki, List.lookup, hik, ih]

/-- C6: with a lawful backing store, a read through CachingSessionStore
right after an update returns the updated session (never an older cached
value), a read right after a delete returns `none`, and a cache miss
consults the backing store and populates the cache when it finds the
session. -/
theorem css_cache_coherence {σ : Type} (st : CachingSessionStore σ) (s : Session) (i : String)
    (hlaw : LawfulStore st.ops) (hid : s.session_id = some i) :
    ((st.update s).read i).1 = some s
    ∧ ((st.delete s).read i).1 = none
    ∧ (∀ c, st.cache_handler = some c → List.lookup i c = none →
        st.ops.read st.backing i = some s →
        (st.read i).1 = some s ∧ (st.read i).2.cache_handler = some ((i, s) :: c)) := by
  refine ⟨?_, ?_, ?_⟩
  · rcases hch : st.cache_handler with _ | c
    · simp [CachingSessionStore.update, CachingSessionStore.read, hch,
        hlaw.read_update st.backing s i hid]
    · simp [CachingSessionStore.update, CachingSessionStore.read, hch, hid,
        lookup_cons_self]
  · rcases hch : st.cache_handler with _ | c
    · simp [CachingSessionStore.delete, CachingSessionStore.read, hch,
        hlaw.read_delete st.backing s i hid]
    · simp [CachingSessionStore.delete, CachingSessionStore.read, hch, hid,
        lookup_filter_self, hlaw.read_delete st.backing s i hid]
  · intro c hch hmiss hfound
    simp [CachingSessionStore.read, hch, hmiss, hfound]

/-- Modelled from the spec: the SessionEventHandler; the event bus is an
optional collaborator (`none` when unset). -/
structure SessionEventHandler where
  event_bus : Option Unit

/-- Modelled from the spec: `notify_start` publishes topic SESSION.START
with the session id payload, failing with SessionEventException when the
session lacks an id at publish time or no event bus is configured; in a
failure case nothing is published. -/
def SessionEventHandler.notify_start (seh : SessionEventHandler) (s : Session) :
    Except Exc Unit × List Call :=
  match s.session_id with
  | none => (Except.error Exc.sessionEvent, [Call.notify_start])
  | some sid =>
    match seh.event_bus with
    | none => (Except.error Exc.sessionEvent, [Call.notify_start])
    | some _ =>
      (Except.ok (), [Call.notify_start, Call.publish "SESSION.START" (Payload.sessionId sid)])

/-- Modelled from the spec: `notify_stop` publishes topic SESSION.STOP
with the session tuple as the items payload, failing with
SessionEventException when no event bus is configured. -/
def SessionEventHandler.notify_stop (seh : SessionEventHandler) (t : SessionTuple) :
    Except Exc Unit × List Call :=
  match seh.event_bus with
  | none => (Except.error Exc.sessionEvent, [Call.notify_stop t])
  | some _ =>
    (Except.ok (), [Call.notify_stop t, Call.publish "SESSION.STOP" (Payload.items t)])

/-- Modelled from the spec: `notify_expiration` publishes topic
SESSION.EXPIRE with the session tuple as the items payload, failing with
SessionEventException when no event bus is configured. -/
def SessionEventHandler.notify_expiration (seh : SessionEventHandler) (t : SessionTuple) :
    Except Exc Unit × List Call :=
  match seh.event_bus with
  | none => (Except.error Exc.sessionEvent, [Call.notify_expiration t])
  | some _ =>
    (Except.ok (), [Call.notify_expiration t, Call.publish "SESSION.EXPIRE" (Payload.items t)])

/-- C7: notify_start publishes SESSION.START with the session id payload
and fails with SessionEventException when the session lacks an id;
notify_stop and notify_expiration publish SESSION.STOP and SESSION.EXPIRE
with the session tuple as the items payload and fail with
SessionEventException when no event bus is configured; in every failure
case nothing is published. -/
theorem seh_notify_contract (seh : SessionEventHandler) (s : Session) (t : SessionTuple) :
    (∀ sid, s.session_id = some sid → seh.event_bus = some () →
      seh.notify_start s =
        (Except.ok (), [Call.notify_start, Call.publish "SESSION.START" (Payload.sessionId sid)]))
    ∧ (s.session_id = none →
        seh.notify_start s = (Except.error Exc.sessionEvent, [Call.notify_start]))
    ∧ (seh.event_bus = none →
        seh.notify_stop t = (Except.error Exc.sessionEvent, [Call.notify_stop t])
        ∧ seh.notify_expiration t = (Except.error Exc.sessionEvent, [Call.notify_expiration t]))
    ∧ (seh.event_bus = some () →
        seh.notify_stop t =
          (Except.ok (), [Call.notify_stop t, Call.publish "SESSION.STOP" (Payload.items t)])
        ∧ seh.notify_expiration t =
          (Except.ok (), [Call.notify_expiration t, Call.publish "SESSION.EXPIRE" (Payload.items t)]))
    ∧ (∀ e log, seh.notify_start s = (Except.error e, log) → log.countP Call.isPublish = 0)
    ∧ (∀ e log, seh.notify_stop t = (Except.error e, log) → log.countP Call.isPublish = 0)
    ∧ (∀ e log, seh.notify_expiration t = (Except.error e, log) → log.countP Call.isPublish = 0) := by
  refine ⟨?_, ?_, ?_, ?_, ?_, ?_, ?_⟩
  · intro sid hsid hbus
    simp [SessionEventHandler.notify_start, hsid, hbus]
  · intro hsid
    simp [SessionEventHandler.notify_start, hsid]
  · intro hbus
    constructor
    · simp [SessionEventHandler.notify_stop, hbus]
    · simp [SessionEventHandler.notify_expiration, hbus]
  · intro hbus
    constructor
    · simp [SessionEventHandler.notify_stop, hbus]
    · simp [SessionEventHandler.notify_expiration, hbus]
  · intro e log h
    rcases hsid : s.session_id with _ | sid
    · simp only [SessionEventHandler.notify_start, hsid] at h
      have hlog := congrArg Prod.snd h
      simp only [Prod.snd] at hlog
      simp [← hlog, List.countP, List.countP.go, Call.isPublish]
    · rcases hbus : seh.event_bus with _ | u
      · simp only [SessionEventHandler.notify_start, hsid, hbus] at h
        have hlog := congrArg Prod.snd h
        simp only [Prod.snd] at hlog
        simp [← hlog, List.countP, List.countP.go, Call.isPublish]
      · simp [SessionEventHandler.notify_start, hsid, hbus] at h
  · intro e log h
    rcases hbus : seh.event_bus with _ | u
    · simp only [SessionEventHandler.notify_stop, hbus] at h
      have hlog := congrArg Prod.snd h
      simp only [Prod.snd] at hlog
      simp [← hlog, List.countP, List.countP.go, Call.isPublish]
    · simp [SessionEventHandler.notify_stop, hbus] at h
  · intro e log h
    rcases hbus : seh.event_bus with _ | u
    · simp only [SessionEventHandler.notify_expiration, hbus] at h
      have hlog := congrArg Prod.snd h
      simp only [Prod.snd] at hlog
      simp [← hlog, List.countP, List.countP.go, Call.isPublish]
    · simp [SessionEventHandler.notify_expiration, hbus] at h

/-- Modelled from the spec: the DefaultNativeSessionHandler — orchestrates
retrieval, validation, expiration/invalidation cascades and change
persistence over a CachingSessionStore and a SessionEventHandler, with the
delete-invalid-sessions policy and the auto-touch flag. -/
structure SessionHandler (σ : Type) where
  session_store : CachingSessionStore σ
  session_event_handler : SessionEventHandler
  delete_invalid_sessions : Bool
  auto_touch : Bool

/-- Modelled from the spec: `on_change` is the single persistence funnel —
it calls the session store's `update`. -/
def SessionHandler.on_change {σ : Type} (sh : SessionHandler σ) (s : Session) :
    SessionHandler σ × List Call :=
  ({ sh with session_store := sh.session_store.update s }, [Call.on_change s])

/-- Modelled from the spec: `delete` removes the session from the store. -/
def SessionHandler.delete {σ : Type} (sh : SessionHandler σ) (s : Session) :
    SessionHandler σ × List Call :=
  ({ sh with session_store := sh.session_store.delete s }, [Call.delete s])

/-- Modelled from the spec: `on_stop` sets the last-access time to the
stop timestamp (left unchanged when no stop timestamp is set) and then
runs `on_change`. -/
def SessionHandler.on_stop {σ : Type} (sh : SessionHandler σ) (s : Session) :
    SessionHandler σ × Session × List Call :=
  let s1 := match s.stop_timestamp with
    | some t => { s with last_access_time := t }
    | none => s
  let r := sh.on_change s1
  (r.1, s1, Call.on_stop s1 :: r.2)

/-- Modelled from the spec: `after_stopped` deletes the session when the
delete-invalid-sessions policy is enabled, otherwise does nothing. -/
def SessionHandler.after_stopped {σ : Type} (sh : SessionHandler σ) (s : Session) :
    SessionHandler σ × List Call :=
  if sh.delete_invalid_sessions then
    let r := sh.delete s
    (r.1, Call.after_stopped s :: r.2)
  else (sh, [Call.after_stopped s])

/-- Modelled from the spec: `after_expired` deletes the session when the
delete-invalid-sessions policy is enabled. -/
def SessionHandler.after_expired {σ : Type} (sh : SessionHandler σ) (s : Session) :
    SessionHandler σ × List Call :=
  if sh.delete_invalid_sessions then
    let r := sh.delete s
    (r.1, Call.after_expired s :: r.2)
  else (sh, [Call.after_expired s])

/-- Modelled from the spec: `on_expiration` — the expired-session
exception and the session key must be supplied together or not at all,
otherwise InvalidArgumentException; on a valid invocation mark the session
expired, run `on_change`, `notify_expiration` with the
`(identifiers, session_key)` tuple (identifiers read from the session's
internal attributes), then `after_expired`. -/
def SessionHandler.on_expiration {σ : Type} (sh : SessionHandler σ) (s : Session)
    (ese : Option Exc) (sk : Option SessionKey) :
    Except Exc Unit × SessionHandler σ × List Call :=
  if ese.isSome != sk.isSome then
    (Except.error Exc.invalidArgument, sh, [Call.on_expiration])
  else
    let s1 := { s with state := SessionState.expired }
    let r1 := sh.on_change s1
    let t : SessionTuple :=
      { identifiers := s1.get_internal_attribute "identifiers_session_key", session_key := sk }
    let r2 := r1.1.session_event_handler.notify_expiration t
    match r2.1 with
    | Except.error e => (Except.error e, r1.1, Call.on_expiration :: (r1.2 ++ r2.2))
    | Except.ok _ =>
      let r3 := r1.1.after_expired s1
      (Except.ok (), r3.1, Call.on_expiration :: (r1.2 ++ r2.2 ++ r3.2))

/-- Modelled from the spec: `on_invalidation` dispatches on the exception
kind — an expiration kind delegates to `on_expiration`; any other
invalid-session kind runs the stop cascade `on_stop`, `notify_stop` with
the `(identifiers, session_key)` tuple, then `after_stopped`. -/
def SessionHandler.on_invalidation {σ : Type} (sh : SessionHandler σ) (s : Session)
    (ise : Exc) (key : SessionKey) :
    Except Exc Unit × SessionHandler σ × List Call :=
  if ise = Exc.expiredSession then
    let r := sh.on_expiration s (some ise) (some key)
    (r.1, r.2.1, Call.on_invalidation :: r.2.2)
  else
    let r1 := sh.on_stop s
    let t : SessionTuple :=
      { identifiers := s.get_internal_attribute "identifiers_session_key",
        session_key := some key }
    let r2 := r1.1.session_event_handler.notify_stop t
    match r2.1 with
    | Except.error e => (Except.error e, r1.1, Call.on_invalidation :: (r1.2.2 ++ r2.2))
    | Except.ok _ =>
      let r3 := r1.1.after_stopped r1.2.1
      (Except.ok (), r3.1, Call.on_invalidation :: (r1.2.2 ++ r2.2 ++ r3.2))

/-- Modelled from the spec: the handler's `validate` invokes the session's
own state check; an expired-timeout condition triggers `on_expiration` and
re-raises; any other invalid-state condition triggers `on_invalidation`
and raises a generic invalid-session failure; success has no side
effect. -/
def SessionHandler.validate {σ : Type} (sh : SessionHandler σ) (s : Session)
    (key : SessionKey) (now : Nat) :
    Except Exc Unit × SessionHandler σ × List Call :=
  match s.validate now with
  | Except.ok _ => (Except.ok (), sh, [])
  | Except.error Exc.expiredSession =>
    let r := sh.on_expiration s (some Exc.expiredSession) (some key)
    match r.1 with
    | Except.error e => (Except.error e, r.2.1, r.2.2)
    | Except.ok _ => (Except.error Exc.expiredSession, r.2.1, r.2.2)
  | Except.error e =>
    let r := sh.on_invalidation s e key
    match r.1 with
    | Except.error e1 => (Except.error e1, r.2.1, r.2.2)
    | Except.ok _ => (Except.error Exc.invalidSession, r.2.1, r.2.2)

/-- Modelled from the spec: `create_session` delegates to the session
store's `create` and fails with SessionCreationException when the store
returns no id. -/
def SessionHandler.create_session {σ : Type} (sh : SessionHandler σ) (s : Session) :
    Except Exc String × SessionHandler σ :=
  let r := sh.session_store.create s
  let sh1 := { sh with session_store := r.2 }
  match r.1 with
  | none => (Except.error Exc.sessionCreation, sh1)
  | some i => (Except.ok i, sh1)

/-- Modelled from the spec: resolve a session id from the key, returning
`none` when the key carries no id.  The in-repository unit test
`test_sh_retrieve_session_w_sessionid_raising` pins the store-miss
behaviour: when the key carries a session id but the store finds no
session for it, an UnknownSessionException is raised. -/
def SessionHandler.retrieve_session {σ : Type} (sh : SessionHandler σ) (key : SessionKey) :
    Except Exc (Option Session) × SessionHandler σ :=
  match key.session_id with
  | none => (Except.ok none, sh)
  | some i =>
    let r := sh.session_store.read i
    let sh1 := { sh with session_store := r.2 }
    match r.1 with
    | none => (Except.error Exc.unknownSession, sh1)
    | some s => (Except.ok (some s), sh1)

/-- Modelled from the spec: `do_get_session` resolves the session via
`retrieve_session`; a found session is validated, auto-touched when the
auto-touch flag is enabled (`touch` then `on_change`), and returned. -/
def SessionHandler.do_get_session {σ : Type} (sh : SessionHandler σ) (key : SessionKey)
    (now : Nat) :
    Except Exc (Option Session) × SessionHandler σ × List Call :=
  match sh.retrieve_session key with
  | (Except.error e, sh1) => (Except.error e, sh1, [])
  | (Except.ok none, sh1) => (Except.ok none, sh1, [])
  | (Except.ok (some s), sh1) =>
    match sh1.validate s key now with
    | (Except.error e, sh2, log) => (Except.error e, sh2, log)
    | (Except.ok _, sh2, log) =>
      if sh2.auto_touch then
        let s1 := s.touch now
        let r := sh2.on_change s1
        (Except.ok (some s1), r.1, log ++ r.2)
      else (Except.ok (some s), sh2, log)

/-- Modelled from the spec: the DefaultNativeSessionManager façade; every
operation re-enters by session key and funnels through the handler. -/
structure NativeSessionManager (σ : Type) where
  session_handler : SessionHandler σ

/-- Modelled from the spec: `_lookup_required_session` — `do_get_session`
that fails with UnknownSessionException when no session is returned. -/
def NativeSessionManager.lookup_required_session {σ : Type} (m : NativeSessionManager σ)
    (key : SessionKey) (now : Nat) :
    Except Exc Session × SessionHandler σ × List Call :=
  match m.session_handler.do_get_session key now with
  | (Except.error e, sh, log) => (Except.error e, sh, log)
  | (Except.ok none, sh, log) => (Except.error Exc.unknownSession, sh, log)
  | (Except.ok (some s), sh, log) => (Except.ok s, sh, log)

/-- Modelled from the spec: the Manager's `stop` — required lookup, call
the session's own `stop()`, and regardless of whether that raises still
run `on_stop`, `notify_stop` with the `(identifiers, session_key)` tuple
(identifiers read from the session's internal attributes, falling back to
the caller-supplied identifiers), and `after_stopped`; the original
failure, if any, propagates to the caller after the teardown.  The session
object is shared mutable state (spec section 5): `race` models any
mutation applied to it by concurrent actors between the lookup and the
stop call, and is the identity when no interference occurs. -/
def NativeSessionManager.stop {σ : Type} (m : NativeSessionManager σ) (key : SessionKey)
    (identifiers : String) (now : Nat) (race : Session → Session) :
    Except Exc Unit × NativeSessionManager σ × List Call :=
  match m.lookup_required_session key now with
  | (Except.error e, sh1, log1) => (Except.error e, { session_handler := sh1 }, log1)
  | (Except.ok s0, sh1, log1) =>
    let s := race s0
    let stopRes := s.stop now
    let sAfter := match stopRes with
      | Except.ok s1 => s1
      | Except.error _ => s
    let r1 := sh1.on_stop sAfter
    let idents := match sAfter.get_internal_attribute "identifiers_session_key" with
      | some v => some v
      | none => some identifiers
    let t : SessionTuple := { identifiers := idents, session_key := some key }
    let r2 := r1.1.session_event_handler.notify_stop t
    let r3 := r1.1.after_stopped r1.2.1
    let result : Except Exc Unit := match stopRes with
      | Except.error e => Except.error e
      | Except.ok _ =>
        match r2.1 with
        | Except.error e => Except.error e
        | Except.ok _ => Except.ok ()
    (result, { session_handler := r3.1 }, log1 ++ (r1.2.2 ++ r2.2 ++ r3.2))

/-- Modelled from the spec: the Manager's `remove_attribute` — required
lookup, remove from the mapping (`none` when the key is absent),
`on_change` invoked unconditionally after the lookup succeeds, and the
removed value is returned. -/
def NativeSessionManager.remove_attribute {σ : Type} (m : NativeSessionManager σ)
    (key : SessionKey) (attribute_key : String) (now : Nat) :
    Except Exc (Option String) × NativeSessionManager σ × List Call :=
  match m.lookup_required_session key now with
  | (Except.error e, sh, log) => (Except.error e, { session_handler := sh }, log)
  | (Except.ok s, sh, log) =>
    let r := s.remove_attribute attribute_key
    let r1 := sh.on_change r.2
    (Except.ok r.1, { session_handler := r1.1 }, log ++ r1.2)

/-- Modelled from the spec: the Manager's `set_attribute` — with the value
omitted or `None` it delegates to `remove_attribute`; otherwise required
lookup, mutate, `on_change`. -/
def NativeSessionManager.set_attribute {σ : Type} (m : NativeSessionManager σ)
    (key : SessionKey) (attribute_key : String) (value : Option String) (now : Nat) :
    Except Exc (Option String) × NativeSessionManager σ × List Call :=
  match value with
  | none => m.remove_attribute key attribute_key now
  | some v =>
    match m.lookup_required_session key now with
    | (Except.error e, sh, log) => (Except.error e, { session_handler := sh }, log)
    | (Except.ok s, sh, log) =>
      let s1 := s.set_attribute attribute_key v
      let r1 := sh.on_change s1
      (Except.ok none, { session_handler := r1.1 }, log ++ r1.2)

/-- Modelled from the spec: the Manager's `remove_internal_attribute`,
the framework-private twin of `remove_attribute`. -/
def NativeSessionManager.remove_internal_attribute {σ : Type} (m : NativeSessionManager σ)
    (key : SessionKey) (attribute_key : String) (now : Nat) :
    Except Exc (Option String) × NativeSessionManager σ × List Call :=
  match m.lookup_required_session key now with
  | (Except.error e, sh, log) => (Except.error e, { session_handler := sh }, log)
  | (Except.ok s, sh, log) =>
    let r := s.remove_internal_attribute attribute_key
    let r1 := sh.on_change r.2
    (Except.ok r.1, { session_handler := r1.1 }, log ++ r1.2)

/-- Modelled from the spec: the Manager's `set_internal_attribute`, the
framework-private twin of `set_attribute`. -/
def NativeSessionManager.set_internal_attribute {σ : Type} (m : NativeSessionManager σ)
    (key : SessionKey) (attribute_key : String) (value : Option String) (now : Nat) :
    Except Exc (Option String) × NativeSessionManager σ × List Call :=
  match value with
  | none => m.remove_internal_attribute key attribute_key now
  | some v =>
    match m.lookup_required_session key now with
    | (Except.error e, sh, log) => (Except.error e, { session_handler := sh }, log)
    | (Except.ok s, sh, log) =>
      let s1 := s.set_internal_attribute attribute_key v
      let r1 := sh.on_change s1
      (Except.ok none, { session_handler := r1.1 }, log ++ r1.2)

/-- C2: `on_expiration` called with exactly one of the expired-session
exception and the session key fails with InvalidArgumentException; called
with both set or both unset (and an event bus configured) it proceeds —
marks the session expired, runs `on_change`, `notify_expiration` with the
`(identifiers, session_key)` tuple, then `after_expired`. -/
theorem sh_on_expiration_invariant {σ : Type} (sh : SessionHandler σ) (s : Session)
    (ese : Option Exc) (sk : Option SessionKey) :
    (ese.isSome ≠ sk.isSome →
      sh.on_expiration s ese sk = (Except.error Exc.invalidArgument, sh, [Call.on_expiration]))
    ∧ (ese.isSome = sk.isSome → sh.session_event_handler.event_bus = some () →
        (sh.on_expiration s ese sk).1 = Except.ok ()
        ∧ (sh.on_expiration s ese sk).2.2 =
            Call.on_expiration ::
            Call.on_change { s with state := SessionState.expired } ::
            Call.notify_expiration
              { identifiers := s.get_internal_attribute "identifiers_session_key",
                session_key := sk } ::
            Call.publish "SESSION.EXPIRE"
              (Payload.items
                { identifiers := s.get_internal_attribute "identifiers_session_key",
                  session_key := sk }) ::
            (if sh.delete_invalid_sessions
              then [Call.after_expired { s with state := SessionState.expired },
                    Call.delete { s with state := SessionState.expired }]
              else [Call.after_expired { s with state := SessionState.expired }])) := by
  constructor
  · intro h
    have hb : (ese.isSome != sk.isSome) = true := bne_iff_ne.mpr h
    simp [SessionHandler.on_expiration, hb]
  · intro h hbus
    have hb : (ese.isSome != sk.isSome) = false := by
      rw [h]; exact bne_self_eq_false sk.isSome
    by_cases hd : sh.delete_invalid_sessions
    · simp [SessionHandler.on_expiration, hb, SessionHandler.on_change,
        SessionEventHandler.notify_expiration, hbus, SessionHandler.after_expired,
        SessionHandler.delete, hd, Session.get_internal_attribute]
    · simp [SessionHandler.on_expiration, hb, SessionHandler.on_change,
        SessionEventHandler.notify_expiration, hbus, SessionHandler.after_expired,
        SessionHandler.delete, hd, Session.get_internal_attribute]

/-- C3: the handler's `validate` dispatches on the session's own state
check — success has no side effect; an expired-timeout condition invokes
`on_expiration` once and re-raises the expired-session failure; any other
invalid-state condition invokes `on_invalidation` once and raises the
generic invalid-session failure. -/
theorem sh_validate_dispatch {σ : Type} (sh : SessionHandler σ) (s : Session)
    (key : SessionKey) (now : Nat) :
    (s.validate now = Except.ok () → sh.validate s key now = (Except.ok (), sh, []))
    ∧ (s.validate now = Except.error Exc.expiredSession →
        sh.session_event_handler.event_bus = some () →
        (sh.validate s key now).1 = Except.error Exc.expiredSession
        ∧ (sh.validate s key now).2.2.countP Call.isOnExpiration = 1)
    ∧ (∀ e, s.validate now = Except.error e → e ≠ Exc.expiredSession →
        sh.session_event_handler.event_bus = some () →
        (sh.validate s key now).1 = Except.error Exc.invalidSession
        ∧ (sh.validate s key now).2.2.countP Call.isOnInvalidation = 1) := by
  refine ⟨?_, ?_, ?_⟩
  · intro h
    simp [SessionHandler.validate, h]
  · intro h hbus
    by_cases hd : sh.delete_invalid_sessions
    all_goals
      simp [SessionHandler.validate, h, SessionHandler.on_expiration,
        SessionHandler.on_change, SessionEventHandler.notify_expiration, hbus,
        SessionHandler.after_expired, SessionHandler.delete, hd,
        List.countP_cons, List.countP_nil, Call.isOnExpiration]
  · intro e h hne hbus
    cases e
    case expiredSession => exact absurd rfl hne
    all_goals
      by_cases hd : sh.delete_invalid_sessions
    all_goals
      simp [SessionHandler.validate, h, SessionHandler.on_invalidation,
        SessionHandler.on_stop, SessionHandler.on_change,
        SessionEventHandler.notify_stop, hbus, SessionHandler.after_stopped,
        SessionHandler.delete, hd, List.countP_cons, List.countP_nil,
        Call.isOnInvalidation]

/-- C4 (amended): `do_get_session` returns `none` immediately when the
key carries no session id; when the key carries a session id but the
store finds no session for it, it fails with UnknownSessionException. -/
theorem sh_do_get_session_miss {σ : Type} (sh : SessionHandler σ) (key : SessionKey)
    (now : Nat) :
    (key.session_id = none → sh.do_get_session key now = (Except.ok none, sh, []))
    ∧ (∀ i, key.session_id = some i → (sh.session_store.read i).1 = none →
        (sh.do_get_session key now).1 = Except.error Exc.unknownSession) := by
  constructor
  · intro h
    simp [SessionHandler.do_get_session, SessionHandler.retrieve_session, h]
  · intro i hkey hread
    simp [SessionHandler.do_get_session, SessionHandler.retrieve_session, hkey, hread]

/-- C5: `create_session` delegates to the session store's `create`,
returning the assigned id, and fails with SessionCreationException when
the store returns no id. -/
theorem sh_create_session_contract {σ : Type} (sh : SessionHandler σ) (s : Session) :
    ((sh.session_store.create s).1 = none →
      sh.create_session s =
        (Except.error Exc.sessionCreation,
         { sh with session_store := (sh.session_store.create s).2 }))
    ∧ (∀ i, (sh.session_store.create s).1 = some i →
        sh.create_session s =
          (Except.ok i, { sh with session_store := (sh.session_store.create s).2 })) := by
  constructor
  · intro h
    simp [SessionHandler.create_session, h]
  · intro i h
    simp [SessionHandler.create_session, h]

/-- A successful handler `validate` leaves the handler untouched and logs
nothing. -/
theorem validate_ok_no_effect {σ : Type} (sh : SessionHandler σ) (s : Session)
    (key : SessionKey) (now : Nat) (u : Unit) (sh2 : SessionHandler σ) (log : List Call)
    (h : sh.validate s key now = (Except.ok u, sh2, log)) : sh2 = sh ∧ log = [] := by
  rcases hv : s.validate now with e | u1
  · cases e <;>
      (simp only [SessionHandler.validate, hv] at h; split at h <;> simp_all)
  · simp only [SessionHandler.validate, hv, Prod.mk.injEq] at h
    exact ⟨h.2.1.symm, h.2.2.symm⟩

/-- A successful `do_get_session` logs at most one `on_change` entry (the
auto-touch persistence) and in particular no stop-teardown entries. -/
theorem do_get_session_ok_log {σ : Type} (sh : SessionHandler σ) (key : SessionKey)
    (now : Nat) (r : Option Session) (sh2 : SessionHandler σ) (log : List Call)
    (h : sh.do_get_session key now = (Except.ok r, sh2, log)) :
    log = [] ∨ ∃ s1, log = [Call.on_change s1] := by
  rcases hr : sh.retrieve_session key with ⟨rr, sh1⟩
  rcases rr with e | os
  · simp [SessionHandler.do_get_session, hr] at h
  · rcases os with _ | s
    · simp only [SessionHandler.do_get_session, hr, Prod.mk.injEq] at h
      exact Or.inl h.2.2.symm
    · rcases hv : sh1.validate s key now with ⟨rv, sh3, logv⟩
      rcases rv with e | u
      · simp [SessionHandler.do_get_session, hr, hv] at h
      · have hve := validate_ok_no_effect sh1 s key now u sh3 logv hv
        rcases h3 : sh3.auto_touch with _ | _
        · simp only [SessionHandler.do_get_session, hr, hv, h3, Bool.false_eq_true,
            if_false, Prod.mk.injEq] at h
          exact Or.inl (by rw [← h.2.2, hve.2])
        · simp only [SessionHandler.do_get_session, hr, hv, h3, if_true,
            Prod.mk.injEq] at h
          refine Or.inr ⟨s.touch now, ?_⟩
          rw [← h.2.2, hve.2]
          simp [SessionHandler.on_change]

/-- A successful required lookup logs no stop-teardown entries. -/
theorem lookup_ok_counts {σ : Type} (m : NativeSessionManager σ) (key : SessionKey)
    (now : Nat) (s : Session) (sh : SessionHandler σ) (log : List Call)
    (h : m.lookup_required_session key now = (Except.ok s, sh, log)) :
    log.countP Call.isOnStop = 0 ∧ log.countP Call.isNotifyStop = 0
    ∧ log.countP Call.isAfterStopped = 0 := by
  rcases hd : m.session_handler.do_get_session key now with ⟨rr, sh1, log1⟩
  rcases rr with e | os
  · simp [NativeSessionManager.lookup_required_session, hd] at h
  · rcases os with _ | s0
    · simp [NativeSessionManager.lookup_required_session, hd] at h
    · simp only [NativeSessionManager.lookup_required_session, hd, Prod.mk.injEq] at h
      have hlog : log = log1 := h.2.2.symm
      subst hlog
      rcases do_get_session_ok_log m.session_handler key now (some s0) sh1 log hd with
        hnil | ⟨s1, hone⟩
      · subst hnil
        simp
      · subst hone
        simp [List.countP_cons, Call.isOnStop, Call.isNotifyStop, Call.isAfterStopped]

/-- C1: when the Manager's `stop` finds the session and the session's own
`stop()` raises, the teardown hooks `on_stop`, `notify_stop` and
`after_stopped` are each still invoked exactly once, and the original
failure propagates to the caller after the teardown. -/
theorem nsm_stop_teardown_on_failure {σ : Type} (m : NativeSessionManager σ)
    (key : SessionKey) (ids : String) (now : Nat) (race : Session → Session)
    (s : Session) (e : Exc)
    (hlook : (m.lookup_required_session key now).1 = Except.ok s)
    (hraise : (race s).stop now = Except.error e) :
    (m.stop key ids now race).1 = Except.error e
    ∧ (m.stop key ids now race).2.2.countP Call.isOnStop = 1
    ∧ (m.stop key ids now race).2.2.countP Call.isNotifyStop = 1
    ∧ (m.stop key ids now race).2.2.countP Call.isAfterStopped = 1 := by
  rcases h : m.lookup_required_session key now with ⟨res, sh1, log1⟩
  rw [h] at hlook
  replace hlook : res = Except.ok s := hlook
  subst hlook
  have hcounts := lookup_ok_counts m key now s sh1 log1 h
  rcases hb : sh1.session_event_handler.event_bus with _ | u
  all_goals rcases hdel : sh1.delete_invalid_sessions with _ | _
  all_goals
    simp [NativeSessionManager.stop, h, hraise, SessionHandler.on_stop,
      SessionHandler.on_change, SessionEventHandler.notify_stop, hb,
      SessionHandler.after_stopped, SessionHandler.delete, hdel,
      List.countP_append, List.countP_cons, List.countP_nil,
      Call.isOnStop, Call.isNotifyStop, Call.isAfterStopped,
      hcounts.1, hcounts.2.1, hcounts.2.2]

/-- C8: `set_attribute` (and `set_internal_attribute`) with the value
omitted or `None` is the corresponding `remove_attribute`
(`remove_internal_attribute`), and removing an absent attribute returns
`None` without raising. -/
theorem nsm_attribute_removal {σ : Type} (m : NativeSessionManager σ) (key : SessionKey)
    (ak : String) (now : Nat) :
    m.set_attribute key ak none now = m.remove_attribute key ak now
    ∧ m.set_internal_attribute key ak none now = m.remove_internal_attribute key ak now
    ∧ (∀ s, (m.lookup_required_session key now).1 = Except.ok s →
        List.lookup ak s.attributes = none →
        (m.remove_attribute key ak now).1 = Except.ok none)
    ∧ (∀ s, (m.lookup_required_session key now).1 = Except.ok s →
        List.lookup ak s.internal_attributes = none →
        (m.remove_internal_attribute key ak now).1 = Except.ok none) := by
  refine ⟨rfl, rfl, ?_, ?_⟩
  · intro s hlk hnone
    rcases h : m.lookup_required_session key now with ⟨res, sh, log⟩
    rw [h] at hlk
    replace hlk : res = Except.ok s := hlk
    subst hlk
    simp [NativeSessionManager.remove_attribute, h, Session.remove_attribute, hnone,
      SessionHandler.on_change]
  · intro s hlk hnone
    rcases h : m.lookup_required_session key now with ⟨res, sh, log⟩
    rw [h] at hlk
    replace hlk : res = Except.ok s := hlk
    subst hlk
    simp [NativeSessionManager.remove_internal_attribute, h,
      Session.remove_internal_attribute, hnone, SessionHandler.on_change]

/-- A concrete backing-store state: an association list keyed by session
id. -/
abbrev ListStore := List (String × Session)

/-- A concrete backing store over `ListStore`; `create` assigns the
session's own id when it has one and fails to assign one otherwise. -/
def listStoreOps : StoreOps ListStore where
  create st s :=
    match s.session_id with
    | some i => (some i, (i, s) :: st.filter (fun p => p.1 != i))
    | none => (none, st)
  read st i := List.lookup i st
  update st s :=
    match s.session_id with
    | some i => (i, s) :: st.filter (fun p => p.1 != i)
    | none => st
  delete st s :=
    match s.session_id with
    | some i => st.filter (fun p => p.1 != i)
    | none => st

/-- The concrete list store honours the backing-store laws. -/
theorem listStoreOps_lawful : LawfulStore listStoreOps := by
  constructor
  · intro b s i hid
    simp [listStoreOps, hid, lookup_cons_self]
  · intro b s i hid
    simp [listStoreOps, hid, lookup_filter_self]

/-- A concrete active session with id s1, both timeouts disabled, and no
attributes. -/
def sampleSession : Session :=
  { session_id := some "s1", start_timestamp := 0, stop_timestamp := none,
    last_access_time := 0, idle_timeout := 0, absolute_timeout := 0,
    host := none, attributes := [], internal_attributes := [],
    state := SessionState.active }

/-- A concrete caching store holding `sampleSession` with an empty cache. -/
def sampleCSS : CachingSessionStore ListStore :=
  { ops := listStoreOps, backing := [("s1", sampleSession)], cache_handler := some [] }

/-- A concrete event handler with an event bus configured. -/
def sampleSEH : SessionEventHandler := { event_bus := some () }

/-- A concrete event handler with no event bus configured. -/
def noBusSEH : SessionEventHandler := { event_bus := none }

/-- A concrete handler over `sampleCSS` with deletion policy enabled and
auto-touch disabled. -/
def sampleHandler : SessionHandler ListStore :=
  { session_store := sampleCSS, session_event_handler := sampleSEH,
    delete_invalid_sessions := true, auto_touch := false }

/-- A concrete manager over `sampleHandler`. -/
def sampleManager : NativeSessionManager ListStore :=
  { session_handler := sampleHandler }

/-- A concrete handler over an empty backing store without a cache. -/
def emptyHandler : SessionHandler ListStore :=
  { session_store := { ops := listStoreOps, backing := [], cache_handler := none },
    session_event_handler := sampleSEH, delete_invalid_sessions := true,
    auto_touch := false }

/-- A key resolving to `sampleSession`. -/
def sampleKey : SessionKey := { session_id := some "s1", identifiers := none }

/-- A key carrying no session id. -/
def noIdKey : SessionKey := { session_id := none, identifiers := none }

/-- A session that already reached the EXPIRED terminal state. -/
def expiredSample : Session := { sampleSession with state := SessionState.expired }

/-- A session that already reached the STOPPED terminal state. -/
def stoppedSample : Session := { sampleSession with state := SessionState.stopped }

/-- A session lacking an id. -/
def noIdSession : Session := { sampleSession with session_id := none }

/-- Interference by a concurrent actor that stops the shared session
object between the Manager's lookup and its stop call. -/
def raceStop : Session → Session := fun t => { t with state := SessionState.stopped }

/-- Witness for C1: a raced stop fails with the invalid-session error yet
each teardown hook is invoked exactly once. -/
theorem nsm_stop_teardown_on_failure_witness :
    (sampleManager.stop sampleKey "ids" 5 raceStop).1 = Except.error Exc.invalidSession
    ∧ (sampleManager.stop sampleKey "ids" 5 raceStop).2.2.countP Call.isOnStop = 1
    ∧ (sampleManager.stop sampleKey "ids" 5 raceStop).2.2.countP Call.isNotifyStop = 1
    ∧ (sampleManager.stop sampleKey "ids" 5 raceStop).2.2.countP Call.isAfterStopped = 1 :=
  nsm_stop_teardown_on_failure sampleManager sampleKey "ids" 5 raceStop sampleSession
    Exc.invalidSession rfl rfl

/-- Witness for C2 at concrete arguments: one-set fails, both-set
proceeds. -/
theorem sh_on_expiration_invariant_witness :
    sampleHandler.on_expiration sampleSession (some Exc.expiredSession) none
      = (Except.error Exc.invalidArgument, sampleHandler, [Call.on_expiration])
    ∧ (sampleHandler.on_expiration sampleSession (some Exc.expiredSession)
        (some sampleKey)).1 = Except.ok () := by
  constructor
  · exact (sh_on_expiration_invariant sampleHandler sampleSession
      (some Exc.expiredSession) none).1 (by decide)
  · exact ((sh_on_expiration_invariant sampleHandler sampleSession
      (some Exc.expiredSession) (some sampleKey)).2 rfl rfl).1

/-- Witness for C3 at concrete sessions in each of the three dispatch
cases. -/
theorem sh_validate_dispatch_witness :
    sampleHandler.validate sampleSession sampleKey 5 = (Except.ok (), sampleHandler, [])
    ∧ (sampleHandler.validate expiredSample sampleKey 5).1 = Except.error Exc.expiredSession
    ∧ (sampleHandler.validate stoppedSample sampleKey 5).1
        = Except.error Exc.invalidSession := by
  refine ⟨?_, ?_, ?_⟩
  · exact (sh_validate_dispatch sampleHandler sampleSession sampleKey 5).1 rfl
  · exact ((sh_validate_dispatch sampleHandler expiredSample sampleKey 5).2.1 rfl rfl).1
  · exact ((sh_validate_dispatch sampleHandler stoppedSample sampleKey 5).2.2
      Exc.stoppedSession rfl (by decide) rfl).1

/-- Counterexample for C4 as stated: a key carrying session id s1 over an
empty store makes `do_get_session` fail with UnknownSessionException
instead of returning `None`. -/
theorem sh_do_get_session_miss_counterexample :
    sampleKey.session_id = some "s1"
    ∧ (emptyHandler.session_store.read "s1").1 = none
    ∧ (emptyHandler.do_get_session sampleKey 0).1 = Except.error Exc.unknownSession
    ∧ (emptyHandler.do_get_session sampleKey 0).1 ≠ Except.ok none := by
  refine ⟨rfl, rfl, rfl, ?_⟩
  have h3 : (emptyHandler.do_get_session sampleKey 0).1
      = Except.error Exc.unknownSession := rfl
  rw [h3]
  simp

/-- Witness for C4 (amended) at concrete keys: no-id key yields `none`,
store miss under an id yields UnknownSessionException. -/
theorem sh_do_get_session_miss_witness :
    emptyHandler.do_get_session noIdKey 0 = (Except.ok none, emptyHandler, [])
    ∧ (emptyHandler.do_get_session sampleKey 0).1 = Except.error Exc.unknownSession := by
  constructor
  · exact (sh_do_get_session_miss emptyHandler noIdKey 0).1 rfl
  · exact (sh_do_get_session_miss emptyHandler sampleKey 0).2 "s1" rfl rfl

/-- Witness for C5 at concrete sessions: an id-less session makes the
store assign no id and creation fails; a session with id s1 is created
under that id. -/
theorem sh_create_session_contract_witness :
    (sampleHandler.create_session noIdSession).1 = Except.error Exc.sessionCreation
    ∧ (sampleHandler.create_session sampleSession).1 = Except.ok "s1" := by
  constructor
  · have h := (sh_create_session_contract sampleHandler noIdSession).1 rfl
    rw [h]
  · have h := (sh_create_session_contract sampleHandler sampleSession).2 "s1" rfl
    rw [h]

/-- Witness for C6 over the concrete lawful list store. -/
theorem css_cache_coherence_witness :
    ((sampleCSS.update sampleSession).read "s1").1 = some sampleSession
    ∧ ((sampleCSS.delete sampleSession).read "s1").1 = none := by
  have h := css_cache_coherence sampleCSS sampleSession "s1" listStoreOps_lawful rfl
  exact ⟨h.1, h.2.1⟩

/-- Witness for C7 at concrete handlers: a configured bus publishes the
start event; an absent bus makes notify_stop and notify_expiration fail. -/
theorem seh_notify_contract_witness :
    sampleSEH.notify_start sampleSession
      = (Except.ok (), [Call.notify_start, Call.publish "SESSION.START" (Payload.sessionId "s1")])
    ∧ noBusSEH.notify_stop { identifiers := none, session_key := none }
      = (Except.error Exc.sessionEvent,
         [Call.notify_stop { identifiers := none, session_key := none }])
    ∧ noBusSEH.notify_expiration { identifiers := none, session_key := none }
      = (Except.error Exc.sessionEvent,
         [Call.notify_expiration { identifiers := none, session_key := none }]) := by
  refine ⟨?_, ?_, ?_⟩
  · exact (seh_notify_contract sampleSEH sampleSession
      { identifiers := none, session_key := none }).1 "s1" rfl rfl
  · exact ((seh_notify_contract noBusSEH sampleSession
      { identifiers := none, session_key := none }).2.2.1 rfl).1
  · exact ((seh_notify_contract noBusSEH sampleSession
      { identifiers := none, session_key := none }).2.2.1 rfl).2

/-- Witness for C8 at the concrete manager: value-less set equals remove,
and removing absent attributes returns `None` without raising. -/
theorem nsm_attribute_removal_witness :
    sampleManager.set_attribute sampleKey "color" none 5
      = sampleManager.remove_attribute sampleKey "color" 5
    ∧ (sampleManager.remove_attribute sampleKey "color" 5).1 = Except.ok none
    ∧ (sampleManager.remove_internal_attribute sampleKey "color" 5).1 = Except.ok none := by
  have h := nsm_attribute_removal sampleManager sampleKey "color" 5
  exact ⟨h.1, h.2.2.1 sampleSession rfl rfl, h.2.2.2 sampleSession rfl rfl⟩

end Yosai
